import Mathlib

/-!
Shallow embedding of the PixUp server (src/server.js): a file-backed
social-posting backend with user signup/login, posts, like/dislike toggle
reactions, comments, owner-gated deletion and bulk clear.  Every request
handler loads a collection, applies one mutation and writes the whole
collection back; we embed each handler as a pure function from the loaded
collection (plus the request fields) to an `Except`-valued result, where
`Except.ok` carries the collection that the handler writes back and
`Except.error` carries the HTTP status and message of the early return
(handlers only call `writePosts`/`writeUsers` on their success path).
Request-body fields that may be absent are `Option String` (JS `undefined`
is `none`); JS truthiness of such a field is `truthy`.
-/

/-- A comment record as built by the `/api/posts/:id/comment` handler:
`{ id, userId, user, text, timestamp }` (server.js lines 285-291). -/
structure Comment where
  id : String
  userId : String
  user : String
  text : String
  timestamp : String
deriving DecidableEq, Repr

/-- A post record as built by the `/api/posts` create handler
(server.js lines 157-168).  `image`/`video` are `null` (`none`) or an
opaque payload string. -/
structure Post where
  id : String
  userId : String
  username : String
  content : String
  image : Option String
  video : Option String
  timestamp : String
  likedBy : List String
  dislikedBy : List String
  comments : List Comment
deriving DecidableEq, Repr

/-- A user record as built by the `/api/signup` handler
(server.js lines 94-98). -/
structure User where
  id : String
  username : String
  passwordHash : String
deriving DecidableEq, Repr

/-- The observable outcome of a handler's early-return branch:
HTTP status code and JSON message. -/
structure HttpResponse where
  status : Nat
  message : String
deriving DecidableEq, Repr

/-- JS truthiness of a request-body field that is either absent
(`undefined`, here `none`) or a string: falsy iff absent or empty. -/
def truthy : Option String → Bool
  | none => false
  | some s => s ≠ ""

/-- The state of a backing JSON file as seen by `readPosts`/`readUsers`:
missing (ENOENT), unreadable (any other read error), or readable with
some raw content. -/
inductive FileState
  | missing
  | unreadable
  | content (data : String)

/-- `readPosts` (server.js lines 28-40): read and parse the posts file;
a missing file, a read error and a parse failure all yield `[]`.
`parse` stands for `JSON.parse` composed with decoding into the
collection schema; `parse s = none` is the thrown-and-caught case. -/
def readPostsFrom (parse : String → Option (List Post)) : FileState → List Post
  | FileState.missing => []
  | FileState.unreadable => []
  | FileState.content data =>
    match parse data with
    | some posts => posts
    | none => []

/-- `readUsers` (server.js lines 52-64): identical structure to
`readPosts`, over the users file. -/
def readUsersFrom (parse : String → Option (List User)) : FileState → List User
  | FileState.missing => []
  | FileState.unreadable => []
  | FileState.content data =>
    match parse data with
    | some users => users
    | none => []

/-- JS `String.prototype.trim()` as used by the signup/login validation:
drop whitespace from both ends of the string (modelled on the character
list so that it is executable). -/
def jsTrim (s : String) : String :=
  ⟨((s.data.dropWhile Char.isWhitespace).reverse.dropWhile Char.isWhitespace).reverse⟩

/-- 400 response shared by signup and login when a credential is blank. -/
def respEmptyCreds : HttpResponse :=
  ⟨400, "Username and password cannot be empty."⟩

/-- 409 response of signup on a duplicate username. -/
def respUserExists : HttpResponse :=
  ⟨409, "Username already exists. Please choose a different one or log in."⟩

/-- 401 response of login, identical for unknown user and wrong password. -/
def respInvalidCreds : HttpResponse :=
  ⟨401, "Invalid username or password."⟩

/-- 404 response of the post-targeting handlers. -/
def respPostNotFound : HttpResponse :=
  ⟨404, "Post not found."⟩

/-- 400 response of createPost on missing data. -/
def respMissingPostData : HttpResponse :=
  ⟨400, "Missing required post data or user not authenticated."⟩

/-- 403 response of deletePost (absence and non-ownership fused). -/
def respDeleteForbidden : HttpResponse :=
  ⟨403, "Post not found or you are not authorized to delete this post."⟩

/-- 404 response of clear_mine when the user owns no posts. -/
def respNoPostsFound : HttpResponse :=
  ⟨404, "No posts found for this user."⟩

/-- 400 response of toggleLike while a dislike is active. -/
def respRemoveDislikeFirst : HttpResponse :=
  ⟨400, "Remove your dislike first."⟩

/-- 400 response of toggleDislike while a like is active. -/
def respRemoveLikeFirst : HttpResponse :=
  ⟨400, "Please remove your like first."⟩

/-- 400 response of addComment on missing data. -/
def respMissingCommentData : HttpResponse :=
  ⟨400, "Missing comment data or user not authenticated."⟩

/-- `POST /api/signup` (server.js lines 78-106).  `username`/`password`
are the raw body fields; `hashedPassword` is the value the opaque hash
service returned for `password` (`bcrypt.hash`), and `freshId` the fresh
`uuidv4()`.  On success returns the users collection that is written
back together with the new user record (whose id and username form the
201 response body). -/
def register (users : List User) (username password : Option String)
    (hashedPassword freshId : String) :
    Except HttpResponse (List User × User) :=
  match username, password with
  | some uname, some pword =>
    if uname = "" || jsTrim uname = "" || pword = "" || jsTrim pword = "" then
      Except.error respEmptyCreds
    else if users.any (fun u => u.username == uname) then
      Except.error respUserExists
    else
      let newUser : User := ⟨freshId, uname, hashedPassword⟩
      Except.ok (users ++ [newUser], newUser)
  | _, _ => Except.error respEmptyCreds

/-- `POST /api/login` (server.js lines 109-134).  `verify pword hash`
models `bcrypt.compare(pword, hash)`.  On success returns the user
record found (whose id and username form the 200 response body). -/
def authenticate (users : List User) (username password : Option String)
    (verify : String → String → Bool) :
    Except HttpResponse User :=
  match username, password with
  | some uname, some pword =>
    if uname = "" || jsTrim uname = "" || pword = "" || jsTrim pword = "" then
      Except.error respEmptyCreds
    else
      match users.find? (fun u => u.username == uname) with
      | none => Except.error respInvalidCreds
      | some user =>
        if verify pword user.passwordHash then Except.ok user
        else Except.error respInvalidCreds
  | _, _ => Except.error respEmptyCreds

/-- Replace the first post whose id is `postId` by its image under `f`,
leaving everything else in place: the `findIndex` + in-place mutation
pattern of the reaction and comment handlers. -/
def updateFirstPost (postId : String) (f : Post → Post) : List Post → List Post
  | [] => []
  | p :: ps =>
    if p.id == postId then f p :: ps else p :: updateFirstPost postId f ps

/-- `POST /api/posts` (server.js lines 144-172).  `freshId` is the fresh
`uuidv4()` and `timestamp` the current `new Date().toISOString()`.  On
success returns the posts collection written back and the new post
(the 201 response body). -/
def createPost (posts : List Post)
    (userId username content image video : Option String)
    (freshId timestamp : String) :
    Except HttpResponse (List Post × Post) :=
  if !truthy userId || !truthy username ||
      (!truthy content && !truthy image && !truthy video) then
    Except.error respMissingPostData
  else
    let newPost : Post :=
      { id := freshId
        userId := userId.getD ""
        username := username.getD ""
        content := content.getD ""
        image := if truthy image then image else none
        video := if truthy video then video else none
        timestamp := timestamp
        likedBy := []
        dislikedBy := []
        comments := [] }
    Except.ok (posts ++ [newPost], newPost)

/-- `DELETE /api/posts/:id` (server.js lines 175-190): filter out the
posts whose id AND owner both match, succeed iff the collection shrank. -/
def deletePost (posts : List Post) (postId userId : String) :
    Except HttpResponse (List Post) :=
  let remaining := posts.filter (fun p => !(p.id == postId && p.userId == userId))
  if remaining.length < posts.length then Except.ok remaining
  else Except.error respDeleteForbidden

/-- `POST /api/posts/clear_mine` (server.js lines 193-206): filter out
every post owned by `userId`, succeed iff the collection shrank. -/
def clearAllByOwner (posts : List Post) (userId : String) :
    Except HttpResponse (List Post) :=
  let remaining := posts.filter (fun p => p.userId != userId)
  if remaining.length < posts.length then Except.ok remaining
  else Except.error respNoPostsFound

/-- `POST /api/posts/:id/like` (server.js lines 209-236): 404 if the
post id is absent, 400 while a dislike by this user is active, else
toggle membership of `userId` in the post's `likedBy`. -/
def toggleLike (posts : List Post) (postId userId : String) :
    Except HttpResponse (List Post) :=
  match posts.find? (fun p => p.id == postId) with
  | none => Except.error respPostNotFound
  | some post =>
    if userId ∈ post.dislikedBy then
      Except.error respRemoveDislikeFirst
    else
      Except.ok (updateFirstPost postId (fun p =>
        if userId ∈ p.likedBy then
          { p with likedBy := p.likedBy.filter (fun i => i != userId) }
        else
          { p with likedBy := p.likedBy ++ [userId] }) posts)

/-- `POST /api/posts/:id/dislike` (server.js lines 239-266): mirror
image of `toggleLike` with the two sets swapped. -/
def toggleDislike (posts : List Post) (postId userId : String) :
    Except HttpResponse (List Post) :=
  match posts.find? (fun p => p.id == postId) with
  | none => Except.error respPostNotFound
  | some post =>
    if userId ∈ post.likedBy then
      Except.error respRemoveLikeFirst
    else
      Except.ok (updateFirstPost postId (fun p =>
        if userId ∈ p.dislikedBy then
          { p with dislikedBy := p.dislikedBy.filter (fun i => i != userId) }
        else
          { p with dislikedBy := p.dislikedBy ++ [userId] }) posts)

/-- `POST /api/posts/:id/comment` (server.js lines 269-295): 404 if the
post is absent, 400 if userId, username or text is falsy, else append a
fresh comment to the post's comment list. -/
def addComment (posts : List Post) (postId : String)
    (userId username text : Option String)
    (freshId timestamp : String) :
    Except HttpResponse (List Post) :=
  match posts.find? (fun p => p.id == postId) with
  | none => Except.error respPostNotFound
  | some _ =>
    if !truthy userId || !truthy username || !truthy text then
      Except.error respMissingCommentData
    else
      Except.ok (updateFirstPost postId (fun p =>
        { p with comments := p.comments ++
            [⟨freshId, userId.getD "", username.getD "", text.getD "", timestamp⟩] }) posts)

/-- The posts file content after a request: handlers call `writePosts`
only on their success path, so an error leaves the file as loaded. -/
def postsAfter (r : Except HttpResponse (List Post)) (posts : List Post) :
    List Post :=
  match r with
  | Except.ok written => written
  | Except.error _ => posts

/-- `postsAfter` for the create handler, whose success value also
carries the new post. -/
def postsAfterCreate (r : Except HttpResponse (List Post × Post))
    (posts : List Post) : List Post :=
  match r with
  | Except.ok written => written.1
  | Except.error _ => posts

/-- Mutual exclusion of reactions on one post: no userId is in both
`likedBy` and `dislikedBy`. -/
def exclusivePost (p : Post) : Prop :=
  ∀ u ∈ p.likedBy, u ∉ p.dislikedBy

instance (p : Post) : Decidable (exclusivePost p) := by
  unfold exclusivePost; infer_instance

/-- Mutual exclusion of reactions on every post of a collection. -/
def exclusiveAll (posts : List Post) : Prop :=
  ∀ p ∈ posts, exclusivePost p

instance (posts : List Post) : Decidable (exclusiveAll posts) := by
  unfold exclusiveAll; infer_instance

/-! ### Concrete data for witnesses -/

/-- A sample post with one like and one dislike by distinct users. -/
def postA : Post :=
  { id := "p1", userId := "u1", username := "alice", content := "hi",
    image := none, video := none, timestamp := "t0",
    likedBy := ["x"], dislikedBy := ["y"], comments := [] }

/-- A sample post with no reactions. -/
def postB : Post :=
  { id := "p2", userId := "u2", username := "bob", content := "yo",
    image := none, video := none, timestamp := "t1",
    likedBy := [], dislikedBy := [], comments := [] }

/-! ### Helper lemmas about `updateFirstPost`, `find?` and `filter` -/

theorem mem_updateFirstPost {postId : String} {f : Post → Post} :
    ∀ {l : List Post} {q : Post}, q ∈ updateFirstPost postId f l →
    q ∈ l ∨ ∃ p, l.find? (fun x => x.id == postId) = some p ∧ q = f p := by
  intro l
  induction l with
  | nil => intro q h; simp [updateFirstPost] at h
  | cons a l ih =>
    intro q h
    by_cases ha : (a.id == postId) = true
    · rw [updateFirstPost, if_pos ha] at h
      rcases List.mem_cons.mp h with h1 | h1
      · exact Or.inr ⟨a, by simp [List.find?_cons, ha], h1⟩
      · exact Or.inl (List.mem_cons_of_mem _ h1)
    · rw [updateFirstPost, if_neg ha] at h
      have ha' : (a.id == postId) = false := by simpa using ha
      rcases List.mem_cons.mp h with h1 | h1
      · exact Or.inl (h1 ▸ List.mem_cons_self _ _)
      · rcases ih h1 with h2 | ⟨p, hp, hq⟩
        · exact Or.inl (List.mem_cons_of_mem _ h2)
        · exact Or.inr ⟨p, by simp [List.find?_cons, ha', hp], hq⟩

theorem find?_decomp {postId : String} (f : Post → Post) :
    ∀ {posts : List Post} {post : Post},
    posts.find? (fun p => p.id == postId) = some post →
    ∃ l1 l2, posts = l1 ++ post :: l2 ∧
      (∀ q ∈ l1, (q.id == postId) = false) ∧
      (post.id == postId) = true ∧
      updateFirstPost postId f posts = l1 ++ f post :: l2 := by
  intro posts
  induction posts with
  | nil => intro post h; simp at h
  | cons p ps ih =>
    intro post h
    by_cases hp : (p.id == postId) = true
    · have h' : some p = some post := by simpa [List.find?_cons, hp] using h
      injection h' with h'
      subst h'
      exact ⟨[], ps, rfl, by simp, hp, by rw [updateFirstPost, if_pos hp]; rfl⟩
    · have hp' : (p.id == postId) = false := by simpa using hp
      rw [List.find?_cons] at h
      rw [hp'] at h
      obtain ⟨l1, l2, heq, hneg, hpos, hupd⟩ := ih h
      refine ⟨p :: l1, l2, by simp [heq], ?_, hpos, ?_⟩
      · intro q hq
        rcases List.mem_cons.mp hq with h1 | h1
        · subst h1; exact hp'
        · exact hneg q h1
      · rw [updateFirstPost, if_neg hp, hupd]
        rfl

theorem find?_middle {pred : Post → Bool} :
    ∀ (l1 : List Post) (q : Post) (l2 : List Post),
    (∀ x ∈ l1, pred x = false) → pred q = true →
    List.find? pred (l1 ++ q :: l2) = some q := by
  intro l1 q l2 hneg hq
  induction l1 with
  | nil => simpa using List.find?_cons_of_pos _ hq
  | cons a l ih =>
    have ha : pred a = false := hneg a (List.mem_cons_self _ _)
    rw [List.cons_append, List.find?_cons_of_neg _ (by simp [ha])]
    exact ih (fun x hx => hneg x (List.mem_cons_of_mem _ hx))

theorem updateFirst_middle (postId : String) (f : Post → Post) :
    ∀ (l1 : List Post) (q : Post) (l2 : List Post),
    (∀ x ∈ l1, (x.id == postId) = false) → (q.id == postId) = true →
    updateFirstPost postId f (l1 ++ q :: l2) = l1 ++ f q :: l2 := by
  intro l1 q l2 hneg hq
  induction l1 with
  | nil => rw [List.nil_append, updateFirstPost, if_pos hq]; rfl
  | cons a l ih =>
    have ha : (a.id == postId) = false := hneg a (List.mem_cons_self _ _)
    have ih' := ih (fun x hx => hneg x (List.mem_cons_of_mem _ hx))
    calc updateFirstPost postId f ((a :: l) ++ q :: l2)
        = a :: updateFirstPost postId f (l ++ q :: l2) := by
          rw [List.cons_append, updateFirstPost, if_neg (by simp [ha])]
      _ = a :: (l ++ f q :: l2) := by rw [ih']
      _ = (a :: l) ++ f q :: l2 := by rw [List.cons_append]

theorem length_filter_lt_of_mem_neg {α : Type} (pred : α → Bool) :
    ∀ (l : List α) (x : α), x ∈ l → pred x = false →
    (l.filter pred).length < l.length := by
  intro l
  induction l with
  | nil => intro x hx; simp at hx
  | cons a l ih =>
    intro x hx hpx
    rcases List.mem_cons.mp hx with rfl | hxl
    · rw [List.filter_cons_of_neg (by simp [hpx])]
      exact Nat.lt_succ_of_le (List.length_filter_le _ _)
    · by_cases ha : pred a = true
      · rw [List.filter_cons_of_pos ha]
        simpa using Nat.succ_lt_succ (ih x hxl hpx)
      · rw [List.filter_cons_of_neg ha]
        exact Nat.lt_succ_of_le (List.length_filter_le _ _)

theorem filter_eq_self_of_not_lt {α : Type} {pred : α → Bool} {l : List α}
    (h : ¬ (l.filter pred).length < l.length) : l.filter pred = l :=
  (List.filter_sublist l).eq_of_length
    (Nat.le_antisymm (List.length_filter_le _ _) (Nat.le_of_not_lt h))

/-! ### Success shape of a toggle from a state without the opposing reaction -/

theorem toggleLike_neutral {posts : List Post} {postId userId : String} {post : Post}
    (hfind : posts.find? (fun p => p.id == postId) = some post)
    (hl : userId ∉ post.likedBy) (hd : userId ∉ post.dislikedBy) :
    ∃ l1 l2, posts = l1 ++ post :: l2 ∧
      (∀ q ∈ l1, (q.id == postId) = false) ∧ (post.id == postId) = true ∧
      toggleLike posts postId userId =
        Except.ok (l1 ++ { post with likedBy := post.likedBy ++ [userId] } :: l2) := by
  obtain ⟨l1, l2, heq, hneg, hpos, hupd⟩ :=
    find?_decomp (fun p =>
      if userId ∈ p.likedBy then
        { p with likedBy := p.likedBy.filter (fun i => i != userId) }
      else
        { p with likedBy := p.likedBy ++ [userId] }) hfind
  refine ⟨l1, l2, heq, hneg, hpos, ?_⟩
  simp only [toggleLike, hfind]
  rw [if_neg hd, hupd, if_neg hl]

theorem toggleDislike_neutral {posts : List Post} {postId userId : String} {post : Post}
    (hfind : posts.find? (fun p => p.id == postId) = some post)
    (hl : userId ∉ post.likedBy) (hd : userId ∉ post.dislikedBy) :
    ∃ l1 l2, posts = l1 ++ post :: l2 ∧
      (∀ q ∈ l1, (q.id == postId) = false) ∧ (post.id == postId) = true ∧
      toggleDislike posts postId userId =
        Except.ok (l1 ++ { post with dislikedBy := post.dislikedBy ++ [userId] } :: l2) := by
  obtain ⟨l1, l2, heq, hneg, hpos, hupd⟩ :=
    find?_decomp (fun p =>
      if userId ∈ p.dislikedBy then
        { p with dislikedBy := p.dislikedBy.filter (fun i => i != userId) }
      else
        { p with dislikedBy := p.dislikedBy ++ [userId] }) hfind
  refine ⟨l1, l2, heq, hneg, hpos, ?_⟩
  simp only [toggleDislike, hfind]
  rw [if_neg hl, hupd, if_neg hd]

theorem filter_bne_append_self {xs : List String} {userId : String}
    (hx : userId ∉ xs) :
    (xs ++ [userId]).filter (fun i => i != userId) = xs := by
  rw [List.filter_append]
  have h1 : List.filter (fun i => i != userId) [userId] = [] := by simp
  have h2 : List.filter (fun i => i != userId) xs = xs :=
    List.filter_eq_self.mpr (fun a ha => by
      simp only [bne_iff_ne, ne_eq, decide_eq_true_eq]
      exact fun hEq => hx (hEq ▸ ha))
  rw [h1, h2, List.append_nil]

/-- C4: on an existing post with the user in neither reaction set,
`toggleLike` applied twice returns the posts collection to exactly its
initial value (so the pair is back in the neutral state and both sets
equal their initial values); the same holds for `toggleDislike`. -/
theorem toggle_idempotent_from_neutral
    (posts : List Post) (postId userId : String) (post : Post)
    (hfind : posts.find? (fun p => p.id == postId) = some post)
    (hl : userId ∉ post.likedBy) (hd : userId ∉ post.dislikedBy) :
    (∃ once, toggleLike posts postId userId = Except.ok once ∧
       toggleLike once postId userId = Except.ok posts) ∧
    (∃ once, toggleDislike posts postId userId = Except.ok once ∧
       toggleDislike once postId userId = Except.ok posts) := by
  constructor
  · obtain ⟨l1, l2, heq, hneg, hpos, hrun⟩ := toggleLike_neutral hfind hl hd
    refine ⟨l1 ++ { post with likedBy := post.likedBy ++ [userId] } :: l2, hrun, ?_⟩
    have hfind1 : (l1 ++ { post with likedBy := post.likedBy ++ [userId] } :: l2).find?
        (fun p => p.id == postId) =
        some { post with likedBy := post.likedBy ++ [userId] } :=
      find?_middle l1 _ l2 hneg hpos
    have hd1 : userId ∉ ({ post with likedBy := post.likedBy ++ [userId] } : Post).dislikedBy := hd
    have hl1 : userId ∈ ({ post with likedBy := post.likedBy ++ [userId] } : Post).likedBy := by
      show userId ∈ post.likedBy ++ [userId]
      simp
    simp only [toggleLike, hfind1]
    rw [if_neg hd1,
      updateFirst_middle postId _ l1 { post with likedBy := post.likedBy ++ [userId] } l2 hneg
        (show ((({ post with likedBy := post.likedBy ++ [userId] } : Post)).id == postId) = true from hpos),
      if_pos hl1, heq]
    have hfl : ({ post with likedBy := post.likedBy ++ [userId] } : Post).likedBy.filter
        (fun i => i != userId) = post.likedBy := filter_bne_append_self hl
    rw [hfl]
  · obtain ⟨l1, l2, heq, hneg, hpos, hrun⟩ := toggleDislike_neutral hfind hl hd
    refine ⟨l1 ++ { post with dislikedBy := post.dislikedBy ++ [userId] } :: l2, hrun, ?_⟩
    have hfind1 : (l1 ++ { post with dislikedBy := post.dislikedBy ++ [userId] } :: l2).find?
        (fun p => p.id == postId) =
        some { post with dislikedBy := post.dislikedBy ++ [userId] } :=
      find?_middle l1 _ l2 hneg hpos
    have hl1 : userId ∉ ({ post with dislikedBy := post.dislikedBy ++ [userId] } : Post).likedBy := hl
    have hd1 : userId ∈ ({ post with dislikedBy := post.dislikedBy ++ [userId] } : Post).dislikedBy := by
      show userId ∈ post.dislikedBy ++ [userId]
      simp
    simp only [toggleDislike, hfind1]
    rw [if_neg hl1,
      updateFirst_middle postId _ l1 { post with dislikedBy := post.dislikedBy ++ [userId] } l2 hneg
        (show ((({ post with dislikedBy := post.dislikedBy ++ [userId] } : Post)).id == postId) = true from hpos),
      if_pos hd1, heq]
    have hfd : ({ post with dislikedBy := post.dislikedBy ++ [userId] } : Post).dislikedBy.filter
        (fun i => i != userId) = post.dislikedBy := filter_bne_append_self hd
    rw [hfd]

/-- C10: the reaction toggles never validate the user.  The embedded
`toggleLike`/`toggleDislike` consult no user collection (none appears in
their signature, mirroring the handlers, which read only the posts
file), and for an existing post and EVERY caller-supplied `userId`
string — ids never registered and the empty string included — the
toggle from the neutral state succeeds and appends exactly that value
to the post's likedBy (resp. dislikedBy); in particular no
ValidationError is returned for a missing userId. -/
theorem toggles_accept_arbitrary_userId
    (posts : List Post) (postId userId : String) (post : Post)
    (hfind : posts.find? (fun p => p.id == postId) = some post)
    (hl : userId ∉ post.likedBy) (hd : userId ∉ post.dislikedBy) :
    (∃ written, toggleLike posts postId userId = Except.ok written ∧
       written.find? (fun p => p.id == postId) =
         some { post with likedBy := post.likedBy ++ [userId] }) ∧
    (∃ written, toggleDislike posts postId userId = Except.ok written ∧
       written.find? (fun p => p.id == postId) =
         some { post with dislikedBy := post.dislikedBy ++ [userId] }) := by
  constructor
  · obtain ⟨l1, l2, heq, hneg, hpos, hrun⟩ := toggleLike_neutral hfind hl hd
    exact ⟨_, hrun, find?_middle l1 _ l2 hneg hpos⟩
  · obtain ⟨l1, l2, heq, hneg, hpos, hrun⟩ := toggleDislike_neutral hfind hl hd
    exact ⟨_, hrun, find?_middle l1 _ l2 hneg hpos⟩

/-- C3: rejected toggles are atomic: on an existing post, `toggleLike`
with the user in dislikedBy fails with the 400 state-conflict response
and `toggleDislike` with the user in likedBy fails with its 400
state-conflict response, and in both cases the posts file is left
exactly as loaded (no set of any post changes, nothing is persisted). -/
theorem rejected_toggle_leaves_state_unchanged
    (posts : List Post) (postId userId : String) (post : Post)
    (hfind : posts.find? (fun p => p.id == postId) = some post) :
    (userId ∈ post.dislikedBy →
      toggleLike posts postId userId = Except.error respRemoveDislikeFirst ∧
      postsAfter (toggleLike posts postId userId) posts = posts) ∧
    (userId ∈ post.likedBy →
      toggleDislike posts postId userId = Except.error respRemoveLikeFirst ∧
      postsAfter (toggleDislike posts postId userId) posts = posts) := by
  constructor
  · intro hd
    have h1 : toggleLike posts postId userId = Except.error respRemoveDislikeFirst := by
      simp only [toggleLike, hfind]
      rw [if_pos hd]
    exact ⟨h1, by rw [h1]; rfl⟩
  · intro hl
    have h1 : toggleDislike posts postId userId = Except.error respRemoveLikeFirst := by
      simp only [toggleDislike, hfind]
      rw [if_pos hl]
    exact ⟨h1, by rw [h1]; rfl⟩

/-- C1: mutual-exclusion invariant of reactions: if no userId is in
both likedBy and dislikedBy of any post of the loaded collection, then
after any of toggleLike, toggleDislike, createPost, addComment,
deletePost, clearAllByOwner the written collection (the loaded one when
the operation errors) again satisfies this on every post. -/
theorem operations_preserve_reaction_exclusion
    (posts : List Post) (h : exclusiveAll posts) :
    (∀ postId userId,
      exclusiveAll (postsAfter (toggleLike posts postId userId) posts)) ∧
    (∀ postId userId,
      exclusiveAll (postsAfter (toggleDislike posts postId userId) posts)) ∧
    (∀ userId username content image video freshId timestamp,
      exclusiveAll (postsAfterCreate
        (createPost posts userId username content image video freshId timestamp) posts)) ∧
    (∀ postId userId username text freshId timestamp,
      exclusiveAll (postsAfter
        (addComment posts postId userId username text freshId timestamp) posts)) ∧
    (∀ postId userId,
      exclusiveAll (postsAfter (deletePost posts postId userId) posts)) ∧
    (∀ userId,
      exclusiveAll (postsAfter (clearAllByOwner posts userId) posts)) := by
  refine ⟨?_, ?_, ?_, ?_, ?_, ?_⟩
  · intro postId userId
    cases hfind : posts.find? (fun p => p.id == postId) with
    | none => simp only [toggleLike, hfind]; exact h
    | some post =>
      by_cases hd : userId ∈ post.dislikedBy
      · simp only [toggleLike, hfind]
        rw [if_pos hd]
        exact h
      · simp only [toggleLike, hfind]
        rw [if_neg hd]
        intro q hq
        rcases mem_updateFirstPost hq with hql | ⟨p, hp, rfl⟩
        · exact h q hql
        · rw [hfind] at hp
          injection hp with hpe
          subst hpe
          by_cases hlk : userId ∈ post.likedBy
          · rw [if_pos hlk]
            intro u hu
            exact h post (List.mem_of_find?_eq_some hfind) u (List.mem_filter.mp hu).1
          · rw [if_neg hlk]
            intro u hu
            rcases List.mem_append.mp hu with hu1 | hu1
            · exact h post (List.mem_of_find?_eq_some hfind) u hu1
            · rw [List.mem_singleton.mp hu1]
              exact hd
  · intro postId userId
    cases hfind : posts.find? (fun p => p.id == postId) with
    | none => simp only [toggleDislike, hfind]; exact h
    | some post =>
      by_cases hlk : userId ∈ post.likedBy
      · simp only [toggleDislike, hfind]
        rw [if_pos hlk]
        exact h
      · simp only [toggleDislike, hfind]
        rw [if_neg hlk]
        intro q hq
        rcases mem_updateFirstPost hq with hql | ⟨p, hp, rfl⟩
        · exact h q hql
        · rw [hfind] at hp
          injection hp with hpe
          subst hpe
          by_cases hdk : userId ∈ post.dislikedBy
          · rw [if_pos hdk]
            intro u hu
            intro hcontra
            exact h post (List.mem_of_find?_eq_some hfind) u hu (List.mem_filter.mp hcontra).1
          · rw [if_neg hdk]
            intro u hu
            intro hcontra
            rcases List.mem_append.mp hcontra with hu1 | hu1
            · exact h post (List.mem_of_find?_eq_some hfind) u hu hu1
            · rw [List.mem_singleton.mp hu1] at hu
              exact hlk hu
  · intro userId username content image video freshId timestamp
    by_cases hc : (!truthy userId || !truthy username ||
        (!truthy content && !truthy image && !truthy video)) = true
    · simp only [createPost]
      rw [if_pos hc]
      exact h
    · simp only [createPost]
      rw [if_neg hc]
      intro q hq
      rcases List.mem_append.mp hq with hql | hqr
      · exact h q hql
      · rw [List.mem_singleton.mp hqr]
        intro u hu
        simp at hu
  · intro postId userId username text freshId timestamp
    cases hfind : posts.find? (fun p => p.id == postId) with
    | none => simp only [addComment, hfind]; exact h
    | some post =>
      by_cases hc : (!truthy userId || !truthy username || !truthy text) = true
      · simp only [addComment, hfind]
        rw [if_pos hc]
        exact h
      · simp only [addComment, hfind]
        rw [if_neg hc]
        intro q hq
        rcases mem_updateFirstPost hq with hql | ⟨p, hp, rfl⟩
        · exact h q hql
        · exact fun u hu => h p (List.mem_of_find?_eq_some hp) u hu
  · intro postId userId
    by_cases hlt : (posts.filter
        (fun p => !(p.id == postId && p.userId == userId))).length < posts.length
    · simp only [deletePost]
      rw [if_pos hlt]
      intro q hq
      exact h q (List.mem_filter.mp hq).1
    · simp only [deletePost]
      rw [if_neg hlt]
      exact h
  · intro userId
    by_cases hlt : (posts.filter (fun p => p.userId != userId)).length < posts.length
    · simp only [clearAllByOwner]
      rw [if_pos hlt]
      intro q hq
      exact h q (List.mem_filter.mp hq).1
    · simp only [clearAllByOwner]
      rw [if_neg hlt]
      exact h

/-- C2: ownership-gated deletion: `deletePost` removes exactly the posts
matching both the id and the requesting user; with no such post it
fails with the fused 403 response and writes nothing, and when the
owner deletes, the written collection is the filter keeping every
non-matching post (each survivor is a non-matching original, every
non-matching original survives). -/
theorem deletePost_ownership_gated
    (posts : List Post) (postId userId : String) :
    ((∀ p ∈ posts, ¬(p.id = postId ∧ p.userId = userId)) →
      deletePost posts postId userId = Except.error respDeleteForbidden ∧
      postsAfter (deletePost posts postId userId) posts = posts) ∧
    (∀ post ∈ posts, post.id = postId → post.userId = userId →
      deletePost posts postId userId =
        Except.ok (posts.filter (fun p => !(p.id == postId && p.userId == userId))) ∧
      (∀ q ∈ posts.filter (fun p => !(p.id == postId && p.userId == userId)),
        q ∈ posts ∧ ¬(q.id = postId ∧ q.userId = userId)) ∧
      (∀ q ∈ posts, ¬(q.id = postId ∧ q.userId = userId) →
        q ∈ posts.filter (fun p => !(p.id == postId && p.userId == userId)))) := by
  constructor
  · intro hno
    have hall : ∀ p ∈ posts, (fun p => !(p.id == postId && p.userId == userId)) p = true := by
      intro p hp
      by_cases h1 : p.id = postId
      · have h2 : p.userId ≠ userId := fun h2 => hno p hp ⟨h1, h2⟩
        simp [h1, h2]
      · simp [h1]
    have hfix : posts.filter (fun p => !(p.id == postId && p.userId == userId)) = posts :=
      List.filter_eq_self.mpr hall
    have herr : deletePost posts postId userId = Except.error respDeleteForbidden := by
      simp only [deletePost]
      rw [hfix, if_neg (lt_irrefl posts.length)]
    exact ⟨herr, by rw [herr]; rfl⟩
  · intro post hmem hid hown
    have hlt : (posts.filter
        (fun p => !(p.id == postId && p.userId == userId))).length < posts.length := by
      apply length_filter_lt_of_mem_neg _ posts post hmem
      simp [hid, hown]
    refine ⟨?_, ?_, ?_⟩
    · simp only [deletePost]
      rw [if_pos hlt]
    · intro q hq
      have hmf := List.mem_filter.mp hq
      refine ⟨hmf.1, fun hcontra => ?_⟩
      have hb := hmf.2
      rw [hcontra.1, hcontra.2] at hb
      simp at hb
    · intro q hq hnq
      apply List.mem_filter.mpr
      refine ⟨hq, ?_⟩
      by_cases h1 : q.id = postId
      · have h2 : q.userId ≠ userId := fun h2 => hnq ⟨h1, h2⟩
        simp [h1, h2]
      · simp [h1]

/-- C7: clearAllByOwner contract: removes every post owned by the user
and no other, keeping the survivors in their relative order (the result
is a sublist of the input); with zero matches it fails with the 404
response and the collection is written back unchanged (not persisted). -/
theorem clearAllByOwner_contract (posts : List Post) (userId : String) :
    ((∀ p ∈ posts, p.userId ≠ userId) →
      clearAllByOwner posts userId = Except.error respNoPostsFound ∧
      postsAfter (clearAllByOwner posts userId) posts = posts) ∧
    (∀ post ∈ posts, post.userId = userId →
      clearAllByOwner posts userId =
        Except.ok (posts.filter (fun p => p.userId != userId)) ∧
      (posts.filter (fun p => p.userId != userId)).Sublist posts ∧
      (∀ q ∈ posts.filter (fun p => p.userId != userId),
        q ∈ posts ∧ q.userId ≠ userId) ∧
      (∀ q ∈ posts, q.userId ≠ userId →
        q ∈ posts.filter (fun p => p.userId != userId))) := by
  constructor
  · intro hno
    have hall : ∀ p ∈ posts, (fun p => p.userId != userId) p = true := by
      intro p hp
      simpa [bne_iff_ne] using hno p hp
    have hfix : posts.filter (fun p => p.userId != userId) = posts :=
      List.filter_eq_self.mpr hall
    have herr : clearAllByOwner posts userId = Except.error respNoPostsFound := by
      simp only [clearAllByOwner]
      rw [hfix, if_neg (lt_irrefl posts.length)]
    exact ⟨herr, by rw [herr]; rfl⟩
  · intro post hmem hown
    have hlt : (posts.filter (fun p => p.userId != userId)).length < posts.length := by
      apply length_filter_lt_of_mem_neg _ posts post hmem
      simp [hown]
    refine ⟨?_, List.filter_sublist posts, ?_, ?_⟩
    · simp only [clearAllByOwner]
      rw [if_pos hlt]
    · intro q hq
      have hmf := List.mem_filter.mp hq
      exact ⟨hmf.1, by simpa [bne_iff_ne] using hmf.2⟩
    · intro q hq hnq
      exact List.mem_filter.mpr ⟨hq, by simpa [bne_iff_ne] using hnq⟩

theorem createPost_cond_iff (a b c d e : Bool) :
    ((!a || !b || (!c && !d && !e)) = true) ↔
      (a = false ∨ b = false ∨ (c = false ∧ d = false ∧ e = false)) := by
  cases a <;> cases b <;> cases c <;> cases d <;> cases e <;> decide

theorem createPost_cond_neg (a b c d e : Bool) :
    a = true → b = true → (c = true ∨ d = true ∨ e = true) →
    ¬ ((!a || !b || (!c && !d && !e)) = true) := by
  cases a <;> cases b <;> cases c <;> cases d <;> cases e <;> decide

/-- C6: createPost contract: the 400 validation failure happens exactly
when userId is falsy, or username is falsy, or content, image and video
are all falsy; otherwise the handler appends a new post carrying the
fresh id, the current timestamp and empty likedBy/dislikedBy/comments,
the appended collection is what gets persisted, and that post is
returned. -/
theorem createPost_contract (posts : List Post)
    (userId username content image video : Option String)
    (freshId timestamp : String) :
    (createPost posts userId username content image video freshId timestamp =
        Except.error respMissingPostData ↔
      (truthy userId = false ∨ truthy username = false ∨
        (truthy content = false ∧ truthy image = false ∧ truthy video = false))) ∧
    (truthy userId = true → truthy username = true →
      (truthy content = true ∨ truthy image = true ∨ truthy video = true) →
      ∃ newPost,
        createPost posts userId username content image video freshId timestamp =
          Except.ok (posts ++ [newPost], newPost) ∧
        postsAfterCreate
          (createPost posts userId username content image video freshId timestamp) posts =
          posts ++ [newPost] ∧
        newPost.id = freshId ∧ newPost.timestamp = timestamp ∧
        newPost.likedBy = [] ∧ newPost.dislikedBy = [] ∧ newPost.comments = []) := by
  constructor
  · constructor
    · intro herr
      by_cases hc : (!truthy userId || !truthy username ||
          (!truthy content && !truthy image && !truthy video)) = true
      · exact (createPost_cond_iff _ _ _ _ _).mp hc
      · exfalso
        simp only [createPost] at herr
        rw [if_neg hc] at herr
        simp at herr
    · intro hprop
      have hc := (createPost_cond_iff (truthy userId) (truthy username)
        (truthy content) (truthy image) (truthy video)).mpr hprop
      simp only [createPost]
      rw [if_pos hc]
  · intro hu hn hp
    have hc := createPost_cond_neg (truthy userId) (truthy username)
      (truthy content) (truthy image) (truthy video) hu hn hp
    have hok : createPost posts userId username content image video freshId timestamp =
        Except.ok (posts ++
          [{ id := freshId, userId := userId.getD "", username := username.getD "",
             content := content.getD "",
             image := if truthy image then image else none,
             video := if truthy video then video else none,
             timestamp := timestamp, likedBy := [], dislikedBy := [], comments := [] }],
          { id := freshId, userId := userId.getD "", username := username.getD "",
            content := content.getD "",
            image := if truthy image then image else none,
            video := if truthy video then video else none,
            timestamp := timestamp, likedBy := [], dislikedBy := [], comments := [] }) := by
      simp only [createPost]
      rw [if_neg hc]
    exact ⟨_, hok, by rw [hok]; rfl, rfl, rfl, rfl, rfl, rfl⟩

/-- C5: register/authenticate round trip: with credentials that are
non-empty and non-blank after trimming, a username not yet in the
collection, and a hash the opaque service verifies against the password
it hashed, `register` succeeds and a subsequent `authenticate` with the
same credentials on the written collection succeeds and returns the
very user record register created — in particular the same user id. -/
theorem register_authenticate_roundtrip
    (users : List User) (uname pword hashedPassword freshId : String)
    (verify : String → String → Bool)
    (hun0 : uname ≠ "") (hun : jsTrim uname ≠ "")
    (hpw0 : pword ≠ "") (hpw : jsTrim pword ≠ "")
    (hnew : ∀ u ∈ users, u.username ≠ uname)
    (hverify : verify pword hashedPassword = true) :
    ∃ users1 newUser,
      register users (some uname) (some pword) hashedPassword freshId =
        Except.ok (users1, newUser) ∧
      newUser.id = freshId ∧
      authenticate users1 (some uname) (some pword) verify = Except.ok newUser := by
  have hdup : (users.any (fun u => u.username == uname)) = false := by
    rw [Bool.eq_false_iff]
    intro hany
    rcases List.any_eq_true.mp hany with ⟨u, hu, hbe⟩
    exact hnew u hu (by simpa using hbe)
  refine ⟨users ++ [⟨freshId, uname, hashedPassword⟩],
    ⟨freshId, uname, hashedPassword⟩, ?_, rfl, ?_⟩
  · simp only [register]
    rw [if_neg (by simp [hun0, hun, hpw0, hpw]), if_neg (by simp [hdup])]
  · simp only [authenticate]
    rw [if_neg (by simp [hun0, hun, hpw0, hpw])]
    have hfind : (users ++ [(⟨freshId, uname, hashedPassword⟩ : User)]).find?
        (fun u => u.username == uname) = some ⟨freshId, uname, hashedPassword⟩ := by
      rw [List.find?_append,
        List.find?_eq_none.mpr (fun u hu => by simpa using hnew u hu)]
      simp [List.find?_cons]
    simp only [hfind]
    rw [if_pos (show verify pword
      (⟨freshId, uname, hashedPassword⟩ : User).passwordHash = true from hverify)]

/-- C9: authentication failure is undifferentiated: with well-formed
credentials, a login for a username absent from the collection and a
login for a present username whose password the hash service rejects
both return exactly the 401 response with the message
"Invalid username or password." — the same status and message, so the
two runs are indistinguishable to the caller. -/
theorem authenticate_failure_undifferentiated
    (users : List User) (u1 p1 u2 p2 : String)
    (verify : String → String → Bool)
    (hu10 : u1 ≠ "") (hu1 : jsTrim u1 ≠ "") (hp10 : p1 ≠ "") (hp1 : jsTrim p1 ≠ "")
    (hu20 : u2 ≠ "") (hu2 : jsTrim u2 ≠ "") (hp20 : p2 ≠ "") (hp2 : jsTrim p2 ≠ "")
    (habsent : ∀ u ∈ users, u.username ≠ u1)
    (user : User)
    (hfound : users.find? (fun u => u.username == u2) = some user)
    (hreject : verify p2 user.passwordHash = false) :
    authenticate users (some u1) (some p1) verify = Except.error respInvalidCreds ∧
    authenticate users (some u2) (some p2) verify = Except.error respInvalidCreds := by
  constructor
  · simp only [authenticate]
    rw [if_neg (by simp [hu10, hu1, hp10, hp1])]
    rw [List.find?_eq_none.mpr (fun u hu => by simpa using habsent u hu)]
  · simp only [authenticate]
    rw [if_neg (by simp [hu20, hu2, hp20, hp2])]
    simp only [hfound]
    rw [if_neg (by simp [hreject])]

/-- C8: persistence load is fail-open: `readPosts` and `readUsers` are
total functions into a sequence (they can never raise to their caller),
returning the empty sequence when the backing file is missing, when it
exists but cannot be read, and when it exists but its content does not
parse; when the content parses they return the parsed sequence. -/
theorem load_fail_open
    (parseP : String → Option (List Post)) (parseU : String → Option (List User)) :
    readPostsFrom parseP FileState.missing = [] ∧
    readPostsFrom parseP FileState.unreadable = [] ∧
    (∀ s, parseP s = none → readPostsFrom parseP (FileState.content s) = []) ∧
    (∀ s posts, parseP s = some posts →
      readPostsFrom parseP (FileState.content s) = posts) ∧
    readUsersFrom parseU FileState.missing = [] ∧
    readUsersFrom parseU FileState.unreadable = [] ∧
    (∀ s, parseU s = none → readUsersFrom parseU (FileState.content s) = []) ∧
    (∀ s users, parseU s = some users →
      readUsersFrom parseU (FileState.content s) = users) := by
  refine ⟨rfl, rfl, ?_, ?_, rfl, rfl, ?_, ?_⟩
  · intro s h
    simp only [readPostsFrom, h]
  · intro s posts h
    simp only [readPostsFrom, h]
  · intro s h
    simp only [readUsersFrom, h]
  · intro s users h
    simp only [readUsersFrom, h]


/-- Witness for C1: the preservation theorem applied to a concrete
two-post collection and one concrete request per operation. -/
theorem operations_preserve_reaction_exclusion_witness :
    exclusiveAll (postsAfter (toggleLike [postA, postB] "p1" "z") [postA, postB]) ∧
    exclusiveAll (postsAfter (toggleDislike [postA, postB] "p1" "z") [postA, postB]) ∧
    exclusiveAll (postsAfterCreate (createPost [postA, postB] (some "u3") (some "carol")
      (some "hey") none none "p3" "t2") [postA, postB]) ∧
    exclusiveAll (postsAfter (addComment [postA, postB] "p1" (some "u3") (some "carol")
      (some "nice") "c1" "t3") [postA, postB]) ∧
    exclusiveAll (postsAfter (deletePost [postA, postB] "p1" "u1") [postA, postB]) ∧
    exclusiveAll (postsAfter (clearAllByOwner [postA, postB] "u2") [postA, postB]) := by
  have h := operations_preserve_reaction_exclusion [postA, postB] (by decide)
  exact ⟨h.1 "p1" "z", h.2.1 "p1" "z",
    h.2.2.1 (some "u3") (some "carol") (some "hey") none none "p3" "t2",
    h.2.2.2.1 "p1" (some "u3") (some "carol") (some "nice") "c1" "t3",
    h.2.2.2.2.1 "p1" "u1", h.2.2.2.2.2 "u2"⟩

/-- Witness for C2: a non-owner delete fails and leaves the collection
unchanged; the owner delete writes exactly the filtered collection. -/
theorem deletePost_ownership_gated_witness :
    (deletePost [postA, postB] "p1" "u2" = Except.error respDeleteForbidden ∧
      postsAfter (deletePost [postA, postB] "p1" "u2") [postA, postB] = [postA, postB]) ∧
    deletePost [postA, postB] "p1" "u1" =
      Except.ok ([postA, postB].filter (fun p => !(p.id == "p1" && p.userId == "u1"))) := by
  constructor
  · exact (deletePost_ownership_gated [postA, postB] "p1" "u2").1 (by decide)
  · exact ((deletePost_ownership_gated [postA, postB] "p1" "u1").2 postA
      (by decide) rfl rfl).1

/-- Witness for C3: postA has likedBy = x and dislikedBy = y, so
toggleLike by y and toggleDislike by x are both rejected with the
collection untouched. -/
theorem rejected_toggle_leaves_state_unchanged_witness :
    (toggleLike [postA] "p1" "y" = Except.error respRemoveDislikeFirst ∧
      postsAfter (toggleLike [postA] "p1" "y") [postA] = [postA]) ∧
    (toggleDislike [postA] "p1" "x" = Except.error respRemoveLikeFirst ∧
      postsAfter (toggleDislike [postA] "p1" "x") [postA] = [postA]) :=
  ⟨(rejected_toggle_leaves_state_unchanged [postA] "p1" "y" postA (by decide)).1 (by decide),
   (rejected_toggle_leaves_state_unchanged [postA] "p1" "x" postA (by decide)).2 (by decide)⟩

/-- Witness for C4 on a reaction-free post. -/
theorem toggle_idempotent_from_neutral_witness :
    (∃ once, toggleLike [postB] "p2" "z" = Except.ok once ∧
       toggleLike once "p2" "z" = Except.ok [postB]) ∧
    (∃ once, toggleDislike [postB] "p2" "z" = Except.ok once ∧
       toggleDislike once "p2" "z" = Except.ok [postB]) :=
  toggle_idempotent_from_neutral [postB] "p2" "z" postB (by decide) (by decide) (by decide)

/-- Witness for C5 with an empty user collection and a verifier that
accepts exactly the hash the register call stored. -/
theorem register_authenticate_roundtrip_witness :
    ∃ users1 newUser,
      register [] (some "alice") (some "pw1") "HASH" "id1" =
        Except.ok (users1, newUser) ∧
      newUser.id = "id1" ∧
      authenticate users1 (some "alice") (some "pw1")
        (fun p h => p == "pw1" && h == "HASH") = Except.ok newUser :=
  register_authenticate_roundtrip [] "alice" "pw1" "HASH" "id1"
    (fun p h => p == "pw1" && h == "HASH")
    (by decide) (by decide) (by decide) (by decide) (by decide) (by decide)

/-- Witness for C6: a missing userId is rejected with the validation
response, and a fully-populated request appends the new post. -/
theorem createPost_contract_witness :
    createPost [postB] none (some "alice") (some "hi") none none "p9" "t9" =
      Except.error respMissingPostData ∧
    (∃ newPost,
      createPost [postB] (some "u1") (some "alice") (some "hi") none none "p9" "t9" =
        Except.ok ([postB] ++ [newPost], newPost) ∧
      postsAfterCreate
        (createPost [postB] (some "u1") (some "alice") (some "hi") none none "p9" "t9")
        [postB] = [postB] ++ [newPost] ∧
      newPost.id = "p9" ∧ newPost.timestamp = "t9" ∧
      newPost.likedBy = [] ∧ newPost.dislikedBy = [] ∧ newPost.comments = []) :=
  ⟨(createPost_contract [postB] none (some "alice") (some "hi") none none "p9" "t9").1.mpr
      (by decide),
   (createPost_contract [postB] (some "u1") (some "alice") (some "hi") none none "p9" "t9").2
      (by decide) (by decide) (Or.inl (by decide))⟩

/-- Witness for C7: clearing for a stranger is the 404 no-op; clearing
for postB's owner writes the filtered collection, a sublist of the
original. -/
theorem clearAllByOwner_contract_witness :
    (clearAllByOwner [postA, postB] "nobody" = Except.error respNoPostsFound ∧
      postsAfter (clearAllByOwner [postA, postB] "nobody") [postA, postB] = [postA, postB]) ∧
    (clearAllByOwner [postA, postB] "u2" =
      Except.ok ([postA, postB].filter (fun p => p.userId != "u2")) ∧
     ([postA, postB].filter (fun p => p.userId != "u2")).Sublist [postA, postB]) := by
  constructor
  · exact (clearAllByOwner_contract [postA, postB] "nobody").1 (by decide)
  · have h := (clearAllByOwner_contract [postA, postB] "u2").2 postB (by decide) rfl
    exact ⟨h.1, h.2.1⟩

/-- Witness for C8 with a parser accepting exactly the content "ok". -/
theorem load_fail_open_witness :
    readPostsFrom (fun s => if s = "ok" then some [postB] else none)
      (FileState.content "bad") = [] ∧
    readPostsFrom (fun s => if s = "ok" then some [postB] else none)
      (FileState.content "ok") = [postB] ∧
    readUsersFrom (fun s => if s = "ok" then some [] else none)
      (FileState.content "bad") = [] ∧
    readUsersFrom (fun s => if s = "ok" then some [] else none)
      (FileState.content "ok") = [] := by
  have h := load_fail_open (fun s => if s = "ok" then some [postB] else none)
    (fun s => if s = "ok" then some [] else none)
  exact ⟨h.2.2.1 "bad" (by decide), h.2.2.2.1 "ok" [postB] (by decide),
    h.2.2.2.2.2.2.1 "bad" (by decide), h.2.2.2.2.2.2.2 "ok" [] (by decide)⟩

/-- Witness for C9: with one registered user alice, a login as the
unknown bob and a login as alice with a rejected password produce the
identical 401 response. -/
theorem authenticate_failure_undifferentiated_witness :
    authenticate [⟨"id1", "alice", "HASH"⟩] (some "bob") (some "pw")
      (fun _ _ => false) = Except.error respInvalidCreds ∧
    authenticate [⟨"id1", "alice", "HASH"⟩] (some "alice") (some "bad")
      (fun _ _ => false) = Except.error respInvalidCreds :=
  authenticate_failure_undifferentiated [⟨"id1", "alice", "HASH"⟩]
    "bob" "pw" "alice" "bad" (fun _ _ => false)
    (by decide) (by decide) (by decide) (by decide)
    (by decide) (by decide) (by decide) (by decide)
    (by decide) ⟨"id1", "alice", "HASH"⟩ (by decide) rfl

/-- Witness for C10 with the empty-string userId on a reaction-free
post. -/
theorem toggles_accept_arbitrary_userId_witness :
    (∃ written, toggleLike [postB] "p2" "" = Except.ok written ∧
       written.find? (fun p => p.id == "p2") =
         some { postB with likedBy := postB.likedBy ++ [""] }) ∧
    (∃ written, toggleDislike [postB] "p2" "" = Except.ok written ∧
       written.find? (fun p => p.id == "p2") =
         some { postB with dislikedBy := postB.dislikedBy ++ [""] }) :=
  toggles_accept_arbitrary_userId [postB] "p2" "" postB (by decide) (by decide) (by decide)
